import Mathlib

/-!
Verification of the task definitions in `lm_eval/tasks/triviaqa.py` and
`lm_eval/tasks/truthfulqa.py`.

Text is embedded as `List Nat` (Unicode codepoints).  Python string
operations used by the two task files (`strip`, `lower`,
`translate`-deletion of punctuation, `split`, `replace`) are given
executable codepoint-level definitions.  External scoring libraries
(BLEURT, sacrebleu, rouge-score) are abstract function parameters
collected in `GenScorers`.
-/

/-- Codepoints of a string literal. -/
def str (s : String) : List Nat :=
  s.data.map Char.toNat

/-- Python `str.strip` whitespace: space, tab, newline, carriage return,
vertical tab, form feed. -/
def isPySpace (n : Nat) : Bool :=
  n = 32 || n = 9 || n = 10 || n = 13 || n = 11 || n = 12

/-- Python `str.strip()`: drop leading and trailing whitespace. -/
def pyStrip (s : List Nat) : List Nat :=
  ((s.dropWhile isPySpace).reverse.dropWhile isPySpace).reverse

/-- ASCII lowercasing of one codepoint, as Python `str.lower` acts on ASCII. -/
def lowerChar (n : Nat) : Nat :=
  if 65 ≤ n ∧ n ≤ 90 then n + 32 else n

/-- Python `str.lower()` (restricted to its ASCII action). -/
def pyLower (s : List Nat) : List Nat :=
  s.map lowerChar

/-- Membership in Python `string.punctuation`
(ASCII ranges 33–47, 58–64, 91–96, 123–126). -/
def isPunct (n : Nat) : Bool :=
  decide ((33 ≤ n ∧ n ≤ 47) ∨ (58 ≤ n ∧ n ≤ 64) ∨
          (91 ≤ n ∧ n ≤ 96) ∨ (123 ≤ n ∧ n ≤ 126))

/-- Python `translate(str.maketrans("", "", string.punctuation))`:
delete every punctuation codepoint. -/
def stripPunct (s : List Nat) : List Nat :=
  s.filter (fun c => !isPunct c)

/-- Python `str.split(sep)` for a one-codepoint separator: splits at every
occurrence, keeping empty pieces. -/
def pySplit (sep : Nat) : List Nat → List (List Nat)
  | [] => [[]]
  | c :: cs =>
    match pySplit sep cs with
    | [] => [[]]
    | h :: t => if c = sep then [] :: h :: t else (c :: h) :: t

/-- Fuel-driven scanner behind `replaceAll`; fuel bounds the number of
scanning steps, one per codepoint of the remaining text. -/
def replaceAllAux (pat repl : List Nat) : Nat → List Nat → List Nat
  | 0, s => s
  | _ + 1, [] => []
  | fuel + 1, c :: cs =>
    if pat ≠ [] ∧ pat.isPrefixOf (c :: cs) then
      repl ++ replaceAllAux pat repl fuel ((c :: cs).drop pat.length)
    else
      c :: replaceAllAux pat repl fuel cs

/-- Python `str.replace(pat, repl)`: leftmost, non-overlapping replacement
of every occurrence of `pat` by `repl`.  A non-empty match consumes at
least one codepoint, so `s.length` steps of fuel always suffice. -/
def replaceAll (pat repl s : List Nat) : List Nat :=
  replaceAllAux pat repl s.length s

/-- Python `max` over a list of numbers (and `np.nanmax` on NaN-free data);
junk value `0` on the empty list, on which Python raises instead. -/
def listMax : List ℚ → ℚ
  | [] => 0
  | x :: xs => xs.foldl max x

/-- Modelled from the spec: `lm_eval.metrics.mean` (not under `src/`) is the
arithmetic mean used by every aggregation entry. -/
def mean (l : List ℚ) : ℚ :=
  l.sum / l.length

/-! ## TriviaQA (`lm_eval/tasks/triviaqa.py`) -/

/-- The `answer` field of a TriviaQA record: `value` and `aliases`. -/
structure TriviaAnswer where
  value : List Nat
  aliases : List (List Nat)
deriving DecidableEq

/-- A TriviaQA document as consumed by `TriviaQA.process_results`. -/
structure TriviaDoc where
  question : List Nat
  answer : TriviaAnswer
deriving DecidableEq

/-- The normalization applied to each alias in `TriviaQA.process_results`:
`alias.lower().translate(str.maketrans("", "", string.punctuation))`. -/
def candidateAlias (a : List Nat) : List Nat :=
  stripPunct (pyLower a)

/-- `TriviaQA.process_results`: normalize the first completion
(`strip`, `lower`, punctuation removal), normalize every alias
(`lower`, punctuation removal), and score `em` by membership. -/
def TriviaQA.process_results (doc : TriviaDoc) (results : List (List Nat)) :
    List (String × ℚ) :=
  let continuation := stripPunct (pyLower (pyStrip (results.headD [])))
  let list_of_candidates := doc.answer.aliases.map candidateAlias
  [("em", if continuation ∈ list_of_candidates then (1 : ℚ) else 0)]

/-- `TriviaQA.aggregation`. -/
def TriviaQA.aggregation : List (String × (List ℚ → ℚ)) :=
  [("em", mean)]

/-- `TriviaQA.higher_is_better`. -/
def TriviaQA.higher_is_better : List (String × Bool) :=
  [("em", true)]

/-! ## TruthfulQA multiple choice (`lm_eval/tasks/truthfulqa.py`) -/

/-- The canonical multiple-choice document (`MultipleChoiceDoc`). -/
structure MultipleChoiceDoc where
  question : List Nat
  options : List (List Nat)
  gold : Nat
  keys : List (List Nat)
deriving DecidableEq

/-- A raw `mc_task.json` record: a question and the `mc1_targets` mapping
from option string to correctness label, in original order. -/
structure RawMCDoc where
  question : List Nat
  mc1_targets : List (List Nat × Nat)
deriving DecidableEq

/-- The fixed label sequence `KEY_LIST` of `_convert_standard`. -/
def KEY_LIST : List (List Nat) :=
  [str "A", str "B", str "C", str "D", str "E", str "F", str "G", str "H",
   str "I", str "J", str "K", str "L", str "M", str "N", str "O"]

/-- `TruthfulQAMultipleChoice._convert_standard`: options are the
`mc1_targets` keys in order, `keys` is `KEY_LIST[:len(options)]`, gold is 0. -/
def TruthfulQAMultipleChoice.convert_standard (doc : RawMCDoc) : MultipleChoiceDoc :=
  let options := doc.mc1_targets.map Prod.fst
  let keys := KEY_LIST.take options.length
  let gold := 0
  { question := doc.question, options := options, gold := gold, keys := keys }

/-- Spec §7 error kinds.  The `assert num_fewshot == 0` failure in both
`fewshot_context` overrides is the spec's `InvalidConfiguration`. -/
inductive TaskError where
  | InvalidConfiguration
  | UnsupportedPartition
  | UnsupportedCardinality
deriving DecidableEq

/-- `TruthfulQAMultipleChoice.fewshot_context`: asserts `num_fewshot == 0`,
then delegates to the base-class context builder (abstract parameter
`superCtx`, the base `Task.fewshot_context` being outside this excerpt). -/
def TruthfulQAMultipleChoice.fewshot_context
    (superCtx : MultipleChoiceDoc → Int → List Nat)
    (doc : MultipleChoiceDoc) (num_fewshot : Int) :
    Except TaskError (List Nat) :=
  if num_fewshot = 0 then Except.ok (superCtx doc num_fewshot)
  else Except.error TaskError.InvalidConfiguration

/-! ## TruthfulQA generation (`lm_eval/tasks/truthfulqa.py`) -/

/-- A generation document as yielded by
`TruthfulQAGeneration.validation_docs`. -/
structure GenDoc where
  question : List Nat
  correct_answers : List (List Nat)
  incorrect_answers : List (List Nat)
deriving DecidableEq

/-- One raw row of `TruthfulQA.csv` as seen by `csv.DictReader`:
the `Question`, `Correct Answers` and `Incorrect Answers` cells. -/
structure CsvRecord where
  question : List Nat
  correctAnswers : List Nat
  incorrectAnswers : List Nat
deriving DecidableEq

/-- The literal `"I have no comment."`. -/
def noComment : List Nat :=
  str "I have no comment."

/-- The per-piece loop body of `_split_multi_answer`: strip each piece,
keep it only when non-empty, and append a final period when missing. -/
def addPeriods : List (List Nat) → List (List Nat)
  | [] => []
  | a :: rest =>
    let a := pyStrip a
    if a.length ≠ 0 then
      (if a.getLast? ≠ some 46 then a ++ [46] else a) :: addPeriods rest
    else
      addPeriods rest

/-- `TruthfulQAGeneration._split_multi_answer` with the default
separator `';'` (codepoint 59). -/
def TruthfulQAGeneration.split_multi_answer (answers : List Nat) : List (List Nat) :=
  addPeriods (pySplit 59 (pyStrip answers))

/-- One iteration of the `validation_docs` loop: `continue` on an empty
`Correct Answers` or `Incorrect Answers` cell, else build the document,
appending `"I have no comment."` when absent. -/
def TruthfulQAGeneration.convertRow (doc : CsvRecord) : Option GenDoc :=
  if doc.correctAnswers = [] ∨ doc.incorrectAnswers = [] then none
  else
    let correct_answers := TruthfulQAGeneration.split_multi_answer doc.correctAnswers
    let correct_answers :=
      if noComment ∈ correct_answers then correct_answers
      else correct_answers ++ [noComment]
    let incorrect_answers := TruthfulQAGeneration.split_multi_answer doc.incorrectAnswers
    some { question := pyStrip doc.question,
           correct_answers := correct_answers,
           incorrect_answers := incorrect_answers }

/-- `TruthfulQAGeneration.validation_docs` over the parsed CSV rows. -/
def TruthfulQAGeneration.validation_docs (records : List CsvRecord) : List GenDoc :=
  records.filterMap TruthfulQAGeneration.convertRow

/-- The three per-call ROUGE sub-scores (`rouge1`, `rouge2`, `rougeLsum`). -/
structure RougeTriple where
  rouge1 : ℚ
  rouge2 : ℚ
  rougeLsum : ℚ
deriving DecidableEq

/-- The external scoring collaborators of `TruthfulQAGeneration`:
the BLEURT pair scorer, `sacrebleu.corpus_bleu` (with the fixed option set
of `TruthfulQAGeneration.bleu` absorbed), `rouge_scorer.RougeScorer.score`
(as per-type f-measures) and the `mid` of `scoring.BootstrapAggregator`. -/
structure GenScorers where
  bleurtPair : List Nat → List Nat → ℚ
  corpusBleu : List (List Nat) → List (List (List Nat)) → ℚ
  rougeScore : List Nat → List Nat → RougeTriple
  rougeAggregateMid : List RougeTriple → RougeTriple

/-- Modelled from the spec: the external BLEURT `compute` (not under `src/`)
"returns a numeric plausibility score per (completion, reference) pair",
so it maps the pair scorer over aligned predictions and references. -/
def bleurtCompute (S : GenScorers) (predictions references : List (List Nat)) :
    List ℚ :=
  (predictions.zip references).map (fun pr => S.bleurtPair pr.1 pr.2)

/-- `TruthfulQAGeneration.bleu`: `sacrebleu.corpus_bleu(preds, refs, ...)`
with its fixed options, returning the `.score`. -/
def TruthfulQAGeneration.bleu (S : GenScorers)
    (refs : List (List (List Nat))) (preds : List (List Nat)) : ℚ :=
  S.corpusBleu preds refs

/-- `_prepare_summary` inside `TruthfulQAGeneration.rouge`:
`summary.replace(" . ", ".\n")`. -/
def prepareSummary (summary : List Nat) : List Nat :=
  replaceAll (str " . ") (str ".\n") summary

/-- `TruthfulQAGeneration.rouge`: prepare each reference and prediction,
score them pairwise, aggregate, and report `mid` f-measures × 100. -/
def TruthfulQAGeneration.rouge (S : GenScorers)
    (refs preds : List (List Nat)) : RougeTriple :=
  let scored := (refs.zip preds).map
    (fun rp => S.rougeScore (prepareSummary rp.1) (prepareSummary rp.2))
  let result := S.rougeAggregateMid scored
  { rouge1 := result.rouge1 * 100,
    rouge2 := result.rouge2 * 100,
    rougeLsum := result.rougeLsum * 100 }

/-- `TruthfulQAGeneration.process_results`. -/
def TruthfulQAGeneration.process_results (S : GenScorers) (doc : GenDoc)
    (results : List (List Nat)) : List (String × ℚ) :=
  let completion := pyStrip (results.headD [])
  let true_refs := doc.correct_answers
  let false_refs := doc.incorrect_answers
  let all_refs := true_refs ++ false_refs
  let bleurt_scores_true :=
    bleurtCompute S (List.replicate true_refs.length completion) true_refs
  let bleurt_scores_false :=
    bleurtCompute S (List.replicate false_refs.length completion) false_refs
  let bleurt_correct := listMax bleurt_scores_true
  let bleurt_incorrect := listMax bleurt_scores_false
  let bleurt_max := bleurt_correct
  let bleurt_diff := bleurt_correct - bleurt_incorrect
  let bleurt_acc : ℚ := if bleurt_incorrect < bleurt_correct then 1 else 0
  let bleu_scores := all_refs.map
    (fun ref => TruthfulQAGeneration.bleu S [[ref]] [completion])
  let bleu_correct := listMax (bleu_scores.take true_refs.length)
  let bleu_incorrect := listMax (bleu_scores.drop true_refs.length)
  let bleu_max := bleu_correct
  let bleu_diff := bleu_correct - bleu_incorrect
  let bleu_acc : ℚ := if bleu_incorrect < bleu_correct then 1 else 0
  let rouge_scores := all_refs.map
    (fun ref => TruthfulQAGeneration.rouge S [ref] [completion])
  let rouge1_scores := rouge_scores.map (fun s => s.rouge1)
  let rouge1_correct := listMax (rouge1_scores.take true_refs.length)
  let rouge1_incorrect := listMax (rouge1_scores.drop true_refs.length)
  let rouge1_max := rouge1_correct
  let rouge1_diff := rouge1_correct - rouge1_incorrect
  let rouge1_acc : ℚ := if rouge1_incorrect < rouge1_correct then 1 else 0
  let rouge2_scores := rouge_scores.map (fun s => s.rouge2)
  let rouge2_correct := listMax (rouge2_scores.take true_refs.length)
  let rouge2_incorrect := listMax (rouge2_scores.drop true_refs.length)
  let rouge2_max := rouge2_correct
  let rouge2_diff := rouge2_correct - rouge2_incorrect
  let rouge2_acc : ℚ := if rouge2_incorrect < rouge2_correct then 1 else 0
  let rougeL_scores := rouge_scores.map (fun s => s.rougeLsum)
  let rougeL_correct := listMax (rougeL_scores.take true_refs.length)
  let rougeL_incorrect := listMax (rougeL_scores.drop true_refs.length)
  let rougeL_max := rougeL_correct
  let rougeL_diff := rougeL_correct - rougeL_incorrect
  let rougeL_acc : ℚ := if rougeL_incorrect < rougeL_correct then 1 else 0
  [("bleurt_max", bleurt_max),
   ("bleurt_acc", bleurt_acc),
   ("bleurt_diff", bleurt_diff),
   ("bleu_max", bleu_max),
   ("bleu_acc", bleu_acc),
   ("bleu_diff", bleu_diff),
   ("rouge1_max", rouge1_max),
   ("rouge1_acc", rouge1_acc),
   ("rouge1_diff", rouge1_diff),
   ("rouge2_max", rouge2_max),
   ("rouge2_acc", rouge2_acc),
   ("rouge2_diff", rouge2_diff),
   ("rougeL_max", rougeL_max),
   ("rougeL_acc", rougeL_acc),
   ("rougeL_diff", rougeL_diff)]

/-- `TruthfulQAGeneration.aggregation`. -/
def TruthfulQAGeneration.aggregation : List (String × (List ℚ → ℚ)) :=
  [("bleurt_max", mean), ("bleurt_acc", mean), ("bleurt_diff", mean),
   ("bleu_max", mean), ("bleu_acc", mean), ("bleu_diff", mean),
   ("rouge1_max", mean), ("rouge1_acc", mean), ("rouge1_diff", mean),
   ("rouge2_max", mean), ("rouge2_acc", mean), ("rouge2_diff", mean),
   ("rougeL_max", mean), ("rougeL_acc", mean), ("rougeL_diff", mean)]

/-- `TruthfulQAGeneration.higher_is_better`. -/
def TruthfulQAGeneration.higher_is_better : List (String × Bool) :=
  [("bleurt_max", true), ("bleurt_acc", true), ("bleurt_diff", true),
   ("bleu_max", true), ("bleu_acc", true), ("bleu_diff", true),
   ("rouge1_max", true), ("rouge1_acc", true), ("rouge1_diff", true),
   ("rouge2_max", true), ("rouge2_acc", true), ("rouge2_diff", true),
   ("rougeL_max", true), ("rougeL_acc", true), ("rougeL_diff", true)]

/-- `TruthfulQAGeneration.fewshot_context`: identical zero-shot guard. -/
def TruthfulQAGeneration.fewshot_context
    (superCtx : GenDoc → Int → List Nat)
    (doc : GenDoc) (num_fewshot : Int) :
    Except TaskError (List Nat) :=
  if num_fewshot = 0 then Except.ok (superCtx doc num_fewshot)
  else Except.error TaskError.InvalidConfiguration

/-! ## Helper lemmas -/

/-- Zipping a replicated prediction against references and scoring pairwise
is the same as scoring each reference against that prediction. -/
theorem zip_replicate_map {α β γ : Type} (f : α → β → γ) (c : α) (l : List β) :
    ((List.replicate l.length c).zip l).map (fun pr => f pr.1 pr.2) =
      l.map (fun r => f c r) := by
  induction l with
  | nil => rfl
  | cons b bs ih => simpa [List.replicate_succ] using ih

/-- Taking the first `l₁.length` mapped scores of a concatenation yields
exactly the mapped scores of `l₁`. -/
theorem take_map_append {α β : Type} (f : α → β) (l₁ l₂ : List α) :
    ((l₁ ++ l₂).map f).take l₁.length = l₁.map f := by
  rw [List.map_append, List.take_left' (by simp)]

/-- Dropping the first `l₁.length` mapped scores of a concatenation yields
exactly the mapped scores of `l₂`. -/
theorem drop_map_append {α β : Type} (f : α → β) (l₁ l₂ : List α) :
    ((l₁ ++ l₂).map f).drop l₁.length = l₂.map f := by
  rw [List.map_append, List.drop_left' (by simp)]

/-! ## C1 -/

/-- C1: for every document and non-empty completion list,
`TriviaQA.process_results` returns the single key `"em"` whose value is `1`
exactly when the normalized first completion is a member of the normalized
alias set, and `0` otherwise; the value is never anything else. -/
theorem triviaqa_em_membership (doc : TriviaDoc) (results : List (List Nat))
    (h : results ≠ []) :
    ∃ v : ℚ, TriviaQA.process_results doc results = [("em", v)] ∧
      (v = 0 ∨ v = 1) ∧
      (v = 1 ↔ stripPunct (pyLower (pyStrip (results.headD []))) ∈
                 doc.answer.aliases.map candidateAlias) := by
  by_cases hm : stripPunct (pyLower (pyStrip (results.headD []))) ∈
      doc.answer.aliases.map candidateAlias
  · refine ⟨1, ?_, Or.inr rfl, iff_of_true rfl hm⟩
    simp only [TriviaQA.process_results]
    rw [if_pos hm]
  · refine ⟨0, ?_, Or.inl rfl, iff_of_false (by norm_num) hm⟩
    simp only [TriviaQA.process_results]
    rw [if_neg hm]

/-- Witness for C1 on the spec's scenario: completion `" Paris."` against
aliases `["paris", "City of Paris"]`. -/
theorem triviaqa_em_membership_witness :
    ∃ v : ℚ,
      TriviaQA.process_results
        ⟨str "q", ⟨str "Paris", [str "paris", str "City of Paris"]⟩⟩
        [str " Paris."] = [("em", v)] ∧
      (v = 0 ∨ v = 1) ∧
      (v = 1 ↔ stripPunct (pyLower (pyStrip ([str " Paris."].headD []))) ∈
                 [str "paris", str "City of Paris"].map candidateAlias) :=
  triviaqa_em_membership
    ⟨str "q", ⟨str "Paris", [str "paris", str "City of Paris"]⟩⟩
    [str " Paris."] (by decide)

/-! ## C6 -/

/-- C6: both TruthfulQA variants reject any nonzero few-shot count with
`InvalidConfiguration`, and at zero delegate to the default context
builder. -/
theorem truthfulqa_zero_shot_only
    (superMC : MultipleChoiceDoc → Int → List Nat)
    (superGen : GenDoc → Int → List Nat)
    (dmc : MultipleChoiceDoc) (dg : GenDoc) (n : Int) :
    (n ≠ 0 →
      TruthfulQAMultipleChoice.fewshot_context superMC dmc n =
        Except.error TaskError.InvalidConfiguration ∧
      TruthfulQAGeneration.fewshot_context superGen dg n =
        Except.error TaskError.InvalidConfiguration) ∧
    TruthfulQAMultipleChoice.fewshot_context superMC dmc 0 =
      Except.ok (superMC dmc 0) ∧
    TruthfulQAGeneration.fewshot_context superGen dg 0 =
      Except.ok (superGen dg 0) := by
  refine ⟨fun hn => ⟨?_, ?_⟩, rfl, rfl⟩ <;>
    simp [TruthfulQAMultipleChoice.fewshot_context,
          TruthfulQAGeneration.fewshot_context, hn]

/-- Witness for C6 at `num_fewshot = 1`. -/
theorem truthfulqa_zero_shot_only_witness :
    TruthfulQAMultipleChoice.fewshot_context (fun _ _ => []) ⟨[], [], 0, []⟩ 1 =
      Except.error TaskError.InvalidConfiguration ∧
    TruthfulQAGeneration.fewshot_context (fun _ _ => []) ⟨[], [], []⟩ 1 =
      Except.error TaskError.InvalidConfiguration :=
  (truthfulqa_zero_shot_only (fun _ _ => []) (fun _ _ => [])
    ⟨[], [], 0, []⟩ ⟨[], [], []⟩ 1).1 (by decide)

/-! ## C9 -/

/-- C9: for both variants, `aggregation`, `higher_is_better` and every
`process_results` output share the same key sequence; every aggregation
entry is the arithmetic `mean` and every `higher_is_better` entry is
`true`. -/
theorem aggregation_keys_and_means :
    TriviaQA.aggregation.map Prod.fst = TriviaQA.higher_is_better.map Prod.fst ∧
    (∀ (doc : TriviaDoc) (results : List (List Nat)),
      (TriviaQA.process_results doc results).map Prod.fst =
        TriviaQA.aggregation.map Prod.fst) ∧
    TriviaQA.aggregation.map Prod.snd = [mean] ∧
    TriviaQA.higher_is_better.map Prod.snd = [true] ∧
    TruthfulQAGeneration.aggregation.map Prod.fst =
      TruthfulQAGeneration.higher_is_better.map Prod.fst ∧
    (∀ (S : GenScorers) (doc : GenDoc) (results : List (List Nat)),
      (TruthfulQAGeneration.process_results S doc results).map Prod.fst =
        TruthfulQAGeneration.aggregation.map Prod.fst) ∧
    TruthfulQAGeneration.aggregation.map Prod.snd = List.replicate 15 mean ∧
    TruthfulQAGeneration.higher_is_better.map Prod.snd = List.replicate 15 true :=
  ⟨rfl, fun _ _ => rfl, rfl, rfl, rfl, fun _ _ _ => rfl, rfl, rfl⟩

/-! ## C3 -/

/-- C3 fails as stated: a 16-option record yields a document whose `keys`
list is shorter than its `options` list, and a 0-option record yields a
document with `gold = 0` not below `len(options)`. -/
theorem c3_counterexample :
    ¬ ((TruthfulQAMultipleChoice.convert_standard
          ⟨str "q", (List.range 16).map (fun i => ([i], 0))⟩).gold <
        (TruthfulQAMultipleChoice.convert_standard
          ⟨str "q", (List.range 16).map (fun i => ([i], 0))⟩).options.length ∧
       (TruthfulQAMultipleChoice.convert_standard
          ⟨str "q", (List.range 16).map (fun i => ([i], 0))⟩).options.length =
        (TruthfulQAMultipleChoice.convert_standard
          ⟨str "q", (List.range 16).map (fun i => ([i], 0))⟩).keys.length) ∧
    ¬ ((TruthfulQAMultipleChoice.convert_standard ⟨str "q", []⟩).gold <
        (TruthfulQAMultipleChoice.convert_standard ⟨str "q", []⟩).options.length) := by
  decide

/-- C3 amended: for every raw record with between 1 and 15 options, the
converted document satisfies `gold = 0 < len(options) = len(keys)`,
options are the `mc1_targets` keys in order, and `keys` is the alphabetic
label prefix; 4 options yield `["A","B","C","D"]`. -/
theorem mc_convert_invariant (d : RawMCDoc)
    (h1 : 1 ≤ d.mc1_targets.length) (h15 : d.mc1_targets.length ≤ 15) :
    (TruthfulQAMultipleChoice.convert_standard d).gold = 0 ∧
    (TruthfulQAMultipleChoice.convert_standard d).gold <
      (TruthfulQAMultipleChoice.convert_standard d).options.length ∧
    (TruthfulQAMultipleChoice.convert_standard d).options.length =
      (TruthfulQAMultipleChoice.convert_standard d).keys.length ∧
    (TruthfulQAMultipleChoice.convert_standard d).options =
      d.mc1_targets.map Prod.fst ∧
    (TruthfulQAMultipleChoice.convert_standard d).keys =
      KEY_LIST.take d.mc1_targets.length ∧
    (d.mc1_targets.length = 4 →
      (TruthfulQAMultipleChoice.convert_standard d).keys =
        [str "A", str "B", str "C", str "D"]) := by
  have hkey : KEY_LIST.length = 15 := by decide
  refine ⟨rfl, ?_, ?_, rfl, ?_, ?_⟩
  · simp only [TruthfulQAMultipleChoice.convert_standard, List.length_map]
    omega
  · simp only [TruthfulQAMultipleChoice.convert_standard, List.length_map,
               List.length_take, hkey]
    omega
  · simp only [TruthfulQAMultipleChoice.convert_standard, List.length_map]
  · intro h4
    simp only [TruthfulQAMultipleChoice.convert_standard, List.length_map, h4]
    decide

/-- Witness for C3 on the spec's scenario: a 4-option record. -/
theorem mc_convert_invariant_witness :
    (TruthfulQAMultipleChoice.convert_standard
        ⟨str "q", [(str "w", 1), (str "x", 0), (str "y", 0), (str "z", 0)]⟩).gold = 0 ∧
    (TruthfulQAMultipleChoice.convert_standard
        ⟨str "q", [(str "w", 1), (str "x", 0), (str "y", 0), (str "z", 0)]⟩).gold <
      (TruthfulQAMultipleChoice.convert_standard
        ⟨str "q", [(str "w", 1), (str "x", 0), (str "y", 0), (str "z", 0)]⟩).options.length ∧
    (TruthfulQAMultipleChoice.convert_standard
        ⟨str "q", [(str "w", 1), (str "x", 0), (str "y", 0), (str "z", 0)]⟩).options.length =
      (TruthfulQAMultipleChoice.convert_standard
        ⟨str "q", [(str "w", 1), (str "x", 0), (str "y", 0), (str "z", 0)]⟩).keys.length ∧
    (TruthfulQAMultipleChoice.convert_standard
        ⟨str "q", [(str "w", 1), (str "x", 0), (str "y", 0), (str "z", 0)]⟩).options =
      [(str "w", 1), (str "x", 0), (str "y", 0), (str "z", 0)].map
        (Prod.fst (α := List Nat) (β := Nat)) ∧
    (TruthfulQAMultipleChoice.convert_standard
        ⟨str "q", [(str "w", 1), (str "x", 0), (str "y", 0), (str "z", 0)]⟩).keys =
      KEY_LIST.take 4 ∧
    (([(str "w", 1), (str "x", 0), (str "y", 0), (str "z", 0)] :
        List (List Nat × Nat)).length = 4 →
      (TruthfulQAMultipleChoice.convert_standard
        ⟨str "q", [(str "w", 1), (str "x", 0), (str "y", 0), (str "z", 0)]⟩).keys =
        [str "A", str "B", str "C", str "D"]) :=
  mc_convert_invariant
    ⟨str "q", [(str "w", 1), (str "x", 0), (str "y", 0), (str "z", 0)]⟩
    (by decide) (by decide)

/-! ## C4 -/

/-- C4 fails as stated: a 16-option record is not rejected; the converter
still produces a document, silently truncating `keys` to the 15 labels. -/
theorem c4_counterexample :
    TruthfulQAMultipleChoice.convert_standard
        ⟨str "q", (List.range 16).map (fun i => ([65 + i], 1))⟩ =
      { question := str "q",
        options := (List.range 16).map (fun i => [65 + i]),
        gold := 0,
        keys := KEY_LIST } ∧
    (TruthfulQAMultipleChoice.convert_standard
        ⟨str "q", (List.range 16).map (fun i => ([65 + i], 1))⟩).keys.length <
      (TruthfulQAMultipleChoice.convert_standard
        ⟨str "q", (List.range 16).map (fun i => ([65 + i], 1))⟩).options.length := by
  decide

/-- C4 amended: for every record with more than 15 options the converter
neither fails nor truncates the option list; it produces a document whose
`keys` is the whole 15-label `KEY_LIST`, strictly shorter than `options`. -/
theorem mc_convert_truncates (d : RawMCDoc)
    (h : 15 < d.mc1_targets.length) :
    TruthfulQAMultipleChoice.convert_standard d =
      { question := d.question,
        options := d.mc1_targets.map Prod.fst,
        gold := 0,
        keys := KEY_LIST } ∧
    (TruthfulQAMultipleChoice.convert_standard d).keys.length <
      (TruthfulQAMultipleChoice.convert_standard d).options.length := by
  have hkey : KEY_LIST.length = 15 := by decide
  have htake : KEY_LIST.take (d.mc1_targets.map Prod.fst).length = KEY_LIST := by
    apply List.take_of_length_le
    simp only [List.length_map, hkey]
    omega
  constructor
  · simp only [TruthfulQAMultipleChoice.convert_standard, htake]
  · simp only [TruthfulQAMultipleChoice.convert_standard, List.length_map,
               List.length_take, hkey]
    omega

/-- Witness for C4 (amended) at a concrete 16-option record. -/
theorem mc_convert_truncates_witness :
    TruthfulQAMultipleChoice.convert_standard
        ⟨str "q", (List.range 16).map (fun i => ([97 + i], 1))⟩ =
      { question := str "q",
        options := ((List.range 16).map (fun i => ([97 + i], (1 : Nat)))).map Prod.fst,
        gold := 0,
        keys := KEY_LIST } ∧
    (TruthfulQAMultipleChoice.convert_standard
        ⟨str "q", (List.range 16).map (fun i => ([97 + i], 1))⟩).keys.length <
      (TruthfulQAMultipleChoice.convert_standard
        ⟨str "q", (List.range 16).map (fun i => ([97 + i], 1))⟩).options.length :=
  mc_convert_truncates
    ⟨str "q", (List.range 16).map (fun i => ([97 + i], 1))⟩ (by decide)

/-! ## C5 -/

/-- Every answer kept by the `_split_multi_answer` loop body is non-empty
and ends with a period (codepoint 46). -/
theorem addPeriods_shape (l : List (List Nat)) :
    ∀ a ∈ addPeriods l, a ≠ [] ∧ a.getLast? = some 46 := by
  induction l with
  | nil => intro a ha; simp [addPeriods] at ha
  | cons x rest ih =>
    intro a ha
    simp only [addPeriods] at ha
    by_cases hx : (pyStrip x).length ≠ 0
    · rw [if_pos hx] at ha
      rcases List.mem_cons.mp ha with heq | hrest
      · subst heq
        by_cases hdot : (pyStrip x).getLast? ≠ some 46
        · rw [if_pos hdot]
          refine ⟨by simp, ?_⟩
          rw [List.getLast?_concat]
        · rw [if_neg hdot]
          push_neg at hdot
          exact ⟨fun hnil => by simp [hnil] at hx, hdot⟩
      · exact ih a hrest
    · rw [if_neg hx] at ha
      exact ih a ha

/-- Every element of `split_multi_answer` is non-empty and period-final. -/
theorem split_multi_answer_shape (s : List Nat) :
    ∀ a ∈ TruthfulQAGeneration.split_multi_answer s,
      a ≠ [] ∧ a.getLast? = some 46 :=
  addPeriods_shape _

/-- C5 fails as stated: the record with non-empty cell `";"` is not
dropped, yet its `incorrect_answers` list is empty. -/
theorem c5_counterexample :
    TruthfulQAGeneration.validation_docs [⟨str "q", str "Yes", str ";"⟩] =
      [{ question := str "q",
         correct_answers := [str "Yes.", noComment],
         incorrect_answers := [] }] := by
  decide

/-- C5 amended: a record with an empty `Correct Answers` or
`Incorrect Answers` cell is silently dropped, and every yielded document
has non-empty `correct_answers`; `incorrect_answers`, however, can be
empty when the cell is non-empty but holds only separators/whitespace. -/
theorem validation_docs_skip_and_correct_nonempty
    (l₁ l₂ : List CsvRecord) (r : CsvRecord)
    (hr : r.correctAnswers = [] ∨ r.incorrectAnswers = [])
    (records : List CsvRecord) (d : GenDoc)
    (hd : d ∈ TruthfulQAGeneration.validation_docs records) :
    TruthfulQAGeneration.validation_docs (l₁ ++ r :: l₂) =
      TruthfulQAGeneration.validation_docs (l₁ ++ l₂) ∧
    d.correct_answers ≠ [] := by
  constructor
  · simp only [TruthfulQAGeneration.validation_docs, List.filterMap_append,
               List.filterMap_cons]
    rw [TruthfulQAGeneration.convertRow, if_pos hr]
  · obtain ⟨rec, _, hrec⟩ := List.mem_filterMap.mp hd
    rw [TruthfulQAGeneration.convertRow] at hrec
    by_cases hempty : rec.correctAnswers = [] ∨ rec.incorrectAnswers = []
    · rw [if_pos hempty] at hrec
      exact absurd hrec (by simp)
    · rw [if_neg hempty] at hrec
      have hd' := Option.some.inj hrec
      rw [← hd']
      by_cases hmem : noComment ∈
          TruthfulQAGeneration.split_multi_answer rec.correctAnswers
      · simpa [hmem] using List.ne_nil_of_mem hmem
      · simp [hmem]

/-- Witness for C5 (amended): dropping the record with the empty
`Correct Answers` cell, and non-emptiness for the one yielded document. -/
theorem validation_docs_skip_witness :
    TruthfulQAGeneration.validation_docs
        ([] ++ ⟨str "b", [], str "No"⟩ :: [⟨str "q", str "Yes", str "No"⟩]) =
      TruthfulQAGeneration.validation_docs
        ([] ++ [⟨str "q", str "Yes", str "No"⟩]) ∧
    ({ question := str "q",
       correct_answers := [str "Yes.", noComment],
       incorrect_answers := [str "No."] } : GenDoc).correct_answers ≠ [] :=
  validation_docs_skip_and_correct_nonempty
    [] [⟨str "q", str "Yes", str "No"⟩] ⟨str "b", [], str "No"⟩
    (Or.inl rfl)
    [⟨str "q", str "Yes", str "No"⟩]
    { question := str "q",
      correct_answers := [str "Yes.", noComment],
      incorrect_answers := [str "No."] }
    (by decide)

/-! ## C10 -/

/-- C10: every yielded generation document contains
`"I have no comment."` among its correct answers, and every string in
`correct_answers` and `incorrect_answers` is non-empty and period-final. -/
theorem validation_docs_answer_shape
    (records : List CsvRecord) (d : GenDoc)
    (hd : d ∈ TruthfulQAGeneration.validation_docs records) :
    noComment ∈ d.correct_answers ∧
    (∀ a ∈ d.correct_answers, a ≠ [] ∧ a.getLast? = some 46) ∧
    (∀ a ∈ d.incorrect_answers, a ≠ [] ∧ a.getLast? = some 46) := by
  obtain ⟨rec, _, hrec⟩ := List.mem_filterMap.mp hd
  rw [TruthfulQAGeneration.convertRow] at hrec
  by_cases hempty : rec.correctAnswers = [] ∨ rec.incorrectAnswers = []
  · rw [if_pos hempty] at hrec
    exact absurd hrec (by simp)
  · rw [if_neg hempty] at hrec
    have hd' := Option.some.inj hrec
    rw [← hd']
    refine ⟨?_, ?_, ?_⟩
    · by_cases hmem : noComment ∈
          TruthfulQAGeneration.split_multi_answer rec.correctAnswers
      · simp [hmem]
      · simp [hmem]
    · intro a ha
      simp only at ha
      by_cases hmem : noComment ∈
          TruthfulQAGeneration.split_multi_answer rec.correctAnswers
      · rw [if_pos hmem] at ha
        exact split_multi_answer_shape _ a ha
      · rw [if_neg hmem] at ha
        rcases List.mem_append.mp ha with hin | hone
        · exact split_multi_answer_shape _ a hin
        · rw [List.mem_singleton.mp hone]
          exact ⟨by decide, by decide⟩
    · intro a ha
      exact split_multi_answer_shape _ a ha

/-- Witness for C10 at a concrete CSV row. -/
theorem validation_docs_answer_shape_witness :
    noComment ∈ ({ question := str "q2",
                   correct_answers := [str "Paris.", noComment],
                   incorrect_answers := [str "London."] } : GenDoc).correct_answers ∧
    (∀ a ∈ ({ question := str "q2",
              correct_answers := [str "Paris.", noComment],
              incorrect_answers := [str "London."] } : GenDoc).correct_answers,
       a ≠ [] ∧ a.getLast? = some 46) ∧
    (∀ a ∈ ({ question := str "q2",
              correct_answers := [str "Paris.", noComment],
              incorrect_answers := [str "London."] } : GenDoc).incorrect_answers,
       a ≠ [] ∧ a.getLast? = some 46) :=
  validation_docs_answer_shape [⟨str "q2", str "Paris", str "London"⟩]
    { question := str "q2",
      correct_answers := [str "Paris.", noComment],
      incorrect_answers := [str "London."] }
    (by decide)

/-! ## C7 -/

/-- Lowercasing a codepoint never changes whether it is punctuation. -/
theorem isPunct_lowerChar (n : Nat) : isPunct (lowerChar n) = isPunct n := by
  unfold isPunct lowerChar
  split
  · rw [decide_eq_decide]
    omega
  · rfl

/-- C7 fails as stated: the alias `" paris"` keeps its leading space under
the code's candidate normalization, while every operation order of
trim/lower/punctuation-strip removes it. -/
theorem c7_counterexample :
    candidateAlias (str " paris") = str " paris" ∧
    pyStrip (pyLower (stripPunct (str " paris"))) = str "paris" ∧
    pyStrip (stripPunct (pyLower (str " paris"))) = str "paris" ∧
    pyLower (pyStrip (stripPunct (str " paris"))) = str "paris" ∧
    pyLower (stripPunct (pyStrip (str " paris"))) = str "paris" ∧
    stripPunct (pyStrip (pyLower (str " paris"))) = str "paris" ∧
    stripPunct (pyLower (pyStrip (str " paris"))) = str "paris" ∧
    str " paris" ≠ str "paris" := by
  decide

/-- C7 amended: each alias undergoes lowercasing and punctuation
stripping — which commute — but no whitespace trimming. -/
theorem alias_normalization_no_trim (a : List Nat) :
    candidateAlias a = stripPunct (pyLower a) ∧
    candidateAlias a = pyLower (stripPunct a) := by
  refine ⟨rfl, ?_⟩
  unfold candidateAlias stripPunct pyLower
  rw [List.filter_map]
  congr 1
  apply List.filter_congr
  intro c _
  simp [Function.comp, isPunct_lowerChar]

/-! ## C8 -/

/-- A successful `isPrefixOf` test yields an explicit decomposition. -/
theorem isPrefixOf_exists {p s : List Nat} (h : p.isPrefixOf s = true) :
    ∃ t, s = p ++ t := by
  induction p generalizing s with
  | nil => exact ⟨s, rfl⟩
  | cons a p ih =>
    cases s with
    | nil => simp [List.isPrefixOf] at h
    | cons b s =>
      simp only [List.isPrefixOf, Bool.and_eq_true, beq_iff_eq] at h
      obtain ⟨t, ht⟩ := ih h.2
      exact ⟨t, by rw [h.1, ht]; rfl⟩

/-- The replacement scanner leaves text without any occurrence of the
pattern untouched, for any amount of fuel. -/
theorem replaceAllAux_self (pat repl : List Nat) :
    ∀ fuel s, (¬ ∃ l r, s = l ++ pat ++ r) →
      replaceAllAux pat repl fuel s = s := by
  intro fuel
  induction fuel with
  | zero => intro s _; rfl
  | succ fuel ih =>
    intro s hocc
    cases s with
    | nil => rfl
    | cons c cs =>
      rw [replaceAllAux]
      have hpre : ¬ (pat ≠ [] ∧ pat.isPrefixOf (c :: cs)) := by
        rintro ⟨-, hpre⟩
        obtain ⟨t, ht⟩ := isPrefixOf_exists hpre
        exact hocc ⟨[], t, by simpa using ht⟩
      rw [if_neg hpre]
      congr 1
      apply ih
      rintro ⟨l, r, hl⟩
      exact hocc ⟨c :: l, r, by simp [hl]⟩

/-- `replaceAll` leaves text without any occurrence of the pattern
untouched. -/
theorem replaceAll_self (pat repl s : List Nat)
    (h : ¬ ∃ l r, s = l ++ pat ++ r) :
    replaceAll pat repl s = s :=
  replaceAllAux_self pat repl s.length s h

/-- C8 fails as stated: `"A. B"` contains a sentence-final period followed
by a space, yet `_prepare_summary` inserts no break (no newline appears);
only the three-codepoint pattern space-period-space is rewritten. -/
theorem c8_counterexample :
    prepareSummary (str "A. B") = str "A. B" ∧
    str "A. B" = str "A" ++ str ". " ++ str "B" ∧
    (10 : Nat) ∉ prepareSummary (str "A. B") := by
  decide

/-- C8 amended: before ROUGE scoring both the completion and each
reference are transformed by replacing every occurrence of the
three-codepoint sequence space-period-space by period-newline; text
without that exact sequence — even `"X. Y"` — is passed through
unchanged. -/
theorem rouge_prepares_spaced_periods (S : GenScorers)
    (refs preds : List (List Nat)) :
    TruthfulQAGeneration.rouge S refs preds =
      (let result := S.rougeAggregateMid ((refs.zip preds).map
         (fun rp => S.rougeScore (replaceAll (str " . ") (str ".\n") rp.1)
                                 (replaceAll (str " . ") (str ".\n") rp.2)))
       { rouge1 := result.rouge1 * 100,
         rouge2 := result.rouge2 * 100,
         rougeLsum := result.rougeLsum * 100 }) ∧
    (∀ s : List Nat, (¬ ∃ l r, s = l ++ str " . " ++ r) →
      prepareSummary s = s) :=
  ⟨rfl, fun s hs => replaceAll_self (str " . ") (str ".\n") s hs⟩

/-- Witness for C8 (amended): `"AB"` has no space-period-space occurrence
and is passed to the scorer unchanged. -/
theorem rouge_prepares_witness : prepareSummary (str "AB") = str "AB" :=
  (rouge_prepares_spaced_periods
      ⟨fun _ _ => 0, fun _ _ => 0, fun _ _ => ⟨0, 0, 0⟩, fun _ => ⟨0, 0, 0⟩⟩
      [] []).2 (str "AB")
    (by
      rintro ⟨l, r, hl⟩
      have := congrArg List.length hl
      simp [str] at this
      omega)

/-! ## C2 -/

/-- C2: for every generation document with non-empty reference sets and
every scorer instantiation, each of the five metric families reports
`max` as the maximum score over the correct-reference set, `diff` as the
correct-set maximum minus the incorrect-set maximum, and `acc` as `1`
exactly when the correct-set maximum is strictly greater. -/
theorem gen_process_results_max_diff_acc (S : GenScorers) (doc : GenDoc)
    (results : List (List Nat))
    (ht : doc.correct_answers ≠ []) (hf : doc.incorrect_answers ≠ []) :
    TruthfulQAGeneration.process_results S doc results =
      (let completion := pyStrip (results.headD [])
       let bleurtC := listMax (doc.correct_answers.map
         (fun r => S.bleurtPair completion r))
       let bleurtI := listMax (doc.incorrect_answers.map
         (fun r => S.bleurtPair completion r))
       let bleuC := listMax (doc.correct_answers.map
         (fun r => TruthfulQAGeneration.bleu S [[r]] [completion]))
       let bleuI := listMax (doc.incorrect_answers.map
         (fun r => TruthfulQAGeneration.bleu S [[r]] [completion]))
       let rouge1C := listMax (doc.correct_answers.map
         (fun r => (TruthfulQAGeneration.rouge S [r] [completion]).rouge1))
       let rouge1I := listMax (doc.incorrect_answers.map
         (fun r => (TruthfulQAGeneration.rouge S [r] [completion]).rouge1))
       let rouge2C := listMax (doc.correct_answers.map
         (fun r => (TruthfulQAGeneration.rouge S [r] [completion]).rouge2))
       let rouge2I := listMax (doc.incorrect_answers.map
         (fun r => (TruthfulQAGeneration.rouge S [r] [completion]).rouge2))
       let rougeLC := listMax (doc.correct_answers.map
         (fun r => (TruthfulQAGeneration.rouge S [r] [completion]).rougeLsum))
       let rougeLI := listMax (doc.incorrect_answers.map
         (fun r => (TruthfulQAGeneration.rouge S [r] [completion]).rougeLsum))
       [("bleurt_max", bleurtC),
        ("bleurt_acc", if bleurtI < bleurtC then (1 : ℚ) else 0),
        ("bleurt_diff", bleurtC - bleurtI),
        ("bleu_max", bleuC),
        ("bleu_acc", if bleuI < bleuC then (1 : ℚ) else 0),
        ("bleu_diff", bleuC - bleuI),
        ("rouge1_max", rouge1C),
        ("rouge1_acc", if rouge1I < rouge1C then (1 : ℚ) else 0),
        ("rouge1_diff", rouge1C - rouge1I),
        ("rouge2_max", rouge2C),
        ("rouge2_acc", if rouge2I < rouge2C then (1 : ℚ) else 0),
        ("rouge2_diff", rouge2C - rouge2I),
        ("rougeL_max", rougeLC),
        ("rougeL_acc", if rougeLI < rougeLC then (1 : ℚ) else 0),
        ("rougeL_diff", rougeLC - rougeLI)]) := by
  simp only [TruthfulQAGeneration.process_results, bleurtCompute,
             zip_replicate_map, List.map_map, Function.comp_def,
             take_map_append, drop_map_append]

/-- Witness for C2 at concrete scorers and a one-correct/one-incorrect
document: derived metric values evaluate as claimed. -/
theorem gen_process_results_witness :
    TruthfulQAGeneration.process_results
        ⟨fun _ _ => 1, fun _ _ => 2, fun _ _ => ⟨3, 4, 5⟩,
         fun l => l.headD ⟨0, 0, 0⟩⟩
        ⟨str "q", [str "a."], [str "b."]⟩ [str "c"] =
      [("bleurt_max", 1), ("bleurt_acc", 0), ("bleurt_diff", 0),
       ("bleu_max", 2), ("bleu_acc", 0), ("bleu_diff", 0),
       ("rouge1_max", 300), ("rouge1_acc", 0), ("rouge1_diff", 0),
       ("rouge2_max", 400), ("rouge2_acc", 0), ("rouge2_diff", 0),
       ("rougeL_max", 500), ("rougeL_acc", 0), ("rougeL_diff", 0)] := by
  rw [gen_process_results_max_diff_acc
    ⟨fun _ _ => 1, fun _ _ => 2, fun _ _ => ⟨3, 4, 5⟩,
     fun l => l.headD ⟨0, 0, 0⟩⟩
    ⟨str "q", [str "a."], [str "b."]⟩ [str "c"]
    (by decide) (by decide)]
  norm_num [listMax, TruthfulQAGeneration.bleu, TruthfulQAGeneration.rouge]
